import Mathlib

/-!
Bio-Formats native examples: the raw-JNI launcher and the JVMLink client interface.

Two source files are covered.

* `components/native/bf-cpp/source/showinfJNI.cpp`: a complete `main` that
  creates a Java VM in-process and calls `loci.formats.tools.ImageInfo.main`.
  It is embedded as a state-passing function over an arbitrary JNI runtime,
  instrumented with the sequence of JNI calls it makes and the text it prints.
* `loci/jvmlink/cpp/JVMLinkClient.h`: the declaration of class
  `JVMLinkClient`.  The declarations are embedded as data; the member function
  bodies are not part of the sources and are modelled from the specification.
-/

set_option autoImplicit false

namespace ShowinfJNI

/-! ## The JNI boundary -/

/-- A `jclass`, `jmethodID`, `jobject`, ... : an opaque handle; `0` is `NULL`. -/
abbrev Handle := Nat

/-- The constant `JNI_VERSION_1_4` of `jni.h` (`0x00010004`). -/
def JNI_VERSION_1_4 : Int := 0x00010004

/-- The struct `JavaVMInitArgs` of `jni.h`; `options` holds the `optionString` of
each `JavaVMOption` (the only member `main` assigns). -/
structure JavaVMInitArgs where
  version : Int
  nOptions : Int
  options : List String
  ignoreUnrecognized : Bool
deriving DecidableEq, Repr

/-- One call across the JNI boundary, with its arguments and, where there is
one, the value it returned. -/
inductive JNICall where
  | JNI_GetDefaultJavaVMInitArgs
  | JNI_CreateJavaVM (vm_args : JavaVMInitArgs) (status : Int)
  | FindClass (name : String) (result : Handle)
  | GetStaticMethodID (clazz : Handle) (name sig : String) (result : Handle)
  | NewObjectArray (len : Int) (clazz : Handle) (init : Handle) (result : Handle)
  | NewStringUTF (utf : String) (result : Handle)
  | SetObjectArrayElement (array : Handle) (index : Int) (val : Handle)
  | CallStaticVoidMethod (clazz : Handle) (methodID : Handle) (args : Handle)
  | DestroyJavaVM
deriving DecidableEq, Repr

/-- The JNI functions `main` uses, as operations on the state `σ` of the Java
runtime.  The runtime is external to the program, so it is a parameter: every
result (status codes, handles) is whatever the runtime answers.  Each operation
is a function, that is, each JNI call returns control to `main`. -/
structure Runtime (σ : Type) where
  JNI_GetDefaultJavaVMInitArgs : JavaVMInitArgs → σ → JavaVMInitArgs × σ
  JNI_CreateJavaVM : JavaVMInitArgs → σ → Int × σ
  FindClass : String → σ → Handle × σ
  GetStaticMethodID : Handle → String → String → σ → Handle × σ
  NewObjectArray : Int → Handle → Handle → σ → Handle × σ
  NewStringUTF : String → σ → Handle × σ
  SetObjectArrayElement : Handle → Int → Handle → σ → σ
  CallStaticVoidMethod : Handle → Handle → Handle → σ → σ
  DestroyJavaVM : σ → σ

/-- One item inserted into `cout`. -/
inductive Out where
  | str (s : String)
  | ptr (p : Handle)
  | endl
deriving DecidableEq, Repr

/-- The process while `main` runs: the runtime state, the JNI calls made so far
(oldest first) and the items written to `cout` so far. -/
structure Proc (σ : Type) where
  vm : σ
  trace : List JNICall
  stdout : List Out

/-- How a run of `main` ends: the process exit status, everything printed, every
JNI call made, and the final runtime state. -/
structure Run (σ : Type) where
  exitCode : Int
  stdout : List Out
  trace : List JNICall
  vm : σ

variable {σ : Type}

/-- Inserts items into `cout`. -/
def Proc.print (items : List Out) (p : Proc σ) : Proc σ :=
  { p with stdout := p.stdout ++ items }

/-- Records a JNI call and installs the runtime state it left. -/
def Proc.call (c : JNICall) (vm : σ) (p : Proc σ) : Proc σ :=
  { p with vm := vm, trace := p.trace ++ [c] }

/-! ## `main`, lines 58-110 -/

/-- The array `string jars[numJars]` of `main` (so `numJars` is its length). -/
def jars : List String := ["loci_tools.jar"]

/-- The loop of lines 63-71 over a jar table:
`classpath = "-Djava.class.path"; for (i = 0; i < numJars; i++)
{ classpath += i == 0 ? "=" : ":"; classpath += jars[i]; }`. -/
def classpathLoop (jars : List String) : String :=
  (List.range jars.length).foldl
    (fun classpath i => (classpath ++ (if i = 0 then "=" else ":")) ++ jars.getD i "")
    "-Djava.class.path"

/-- The constant `numOptions` of `main`. -/
def numOptions : Int := 1

/-- The body of the loop of lines 101-104, for one value of `i`:
`jstring arg = env->NewStringUTF(argv[i]); env->SetObjectArrayElement(args, i - 1, arg);`. -/
def marshalArg (rt : Runtime σ) (argv : List String) (args : Handle) (p : Proc σ) (i : Nat) :
    Proc σ :=
  let r := rt.NewStringUTF (argv.getD i "") p.vm
  let p1 := p.call (.NewStringUTF (argv.getD i "") r.1) r.2
  p1.call (.SetObjectArrayElement args ((i : Int) - 1) r.1)
    (rt.SetObjectArrayElement args ((i : Int) - 1) r.1 p1.vm)

/-- The loop `for (int i=1; i<argc; i++)` of lines 101-104: `i` takes the values
`1, 2, ..., argc - 1` in this order (none when `argc <= 1`). -/
def marshalLoop (rt : Runtime σ) (argv : List String) (args : Handle) (p : Proc σ) : Proc σ :=
  (List.range' 1 (argv.length - 1)).foldl (marshalArg rt argv args) p

/-- Lines 91-109 of `main`: what runs once `JNI_CreateJavaVM` has returned zero. -/
def invokeImageInfo (rt : Runtime σ) (argv : List String) (p : Proc σ) : Run σ :=
  let argc : Int := argv.length
  let r1 := rt.FindClass "loci/formats/tools/ImageInfo" p.vm
  let imageInfoClass := r1.1
  let p := p.call (.FindClass "loci/formats/tools/ImageInfo" imageInfoClass) r1.2
  let p := p.print [.str "Got ImageInfo class: ", .ptr imageInfoClass, .endl]
  let r2 := rt.GetStaticMethodID imageInfoClass "main" "([Ljava/lang/String;)V" p.vm
  let mid := r2.1
  let p := p.call (.GetStaticMethodID imageInfoClass "main" "([Ljava/lang/String;)V" mid) r2.2
  let p := p.print [.str "Got main method: ", .ptr mid, .endl]
  let r3 := rt.FindClass "java/lang/String" p.vm
  let stringClass := r3.1
  let p := p.call (.FindClass "java/lang/String" stringClass) r3.2
  let p := p.print [.str "Got String class: ", .ptr stringClass, .endl]
  let r4 := rt.NewObjectArray (argc - 1) stringClass 0 p.vm
  let args := r4.1
  let p := p.call (.NewObjectArray (argc - 1) stringClass 0 args) r4.2
  let p := marshalLoop rt argv args p
  let p := p.print [.str "Got object array: ", .ptr args, .endl]
  let p := p.call (.CallStaticVoidMethod imageInfoClass mid args)
    (rt.CallStaticVoidMethod imageInfoClass mid args p.vm)
  let p := p.call .DestroyJavaVM (rt.DestroyJavaVM p.vm)
  { exitCode := 0, stdout := p.stdout, trace := p.trace, vm := p.vm }

/-- The function `main(int argc, char* argv[])`.  `argv` lists `argv[0]` to
`argv[argc-1]`, so `argc` is its length; `vm_args0` is the indeterminate initial
content of the local `vm_args`; `vm0` is the state of the Java runtime when the
process starts.  Falling off the end of `main` is exit status 0, `exit(1)` is
exit status 1.  `argc` is at least 0 and fits an `int`, so `argc - 1` and `i - 1`
are computed without overflow. -/
def main (rt : Runtime σ) (argv : List String) (vm_args0 : JavaVMInitArgs) (vm0 : σ) : Run σ :=
  let classpath := classpathLoop jars
  let p : Proc σ := { vm := vm0, trace := [], stdout := [] }
  let p := p.print [.str ("Classpath = " ++ classpath), .endl]
  let r0 := rt.JNI_GetDefaultJavaVMInitArgs vm_args0 p.vm
  let p := p.call .JNI_GetDefaultJavaVMInitArgs r0.2
  let vm_args : JavaVMInitArgs :=
    { r0.1 with version := JNI_VERSION_1_4, options := [classpath], nOptions := numOptions }
  let r := rt.JNI_CreateJavaVM vm_args p.vm
  let p := p.call (.JNI_CreateJavaVM vm_args r.1) r.2
  if r.1 ≠ 0 then
    let p := p.print [.str "Failed to create the JVM", .endl]
    { exitCode := 1, stdout := p.stdout, trace := p.trace, vm := p.vm }
  else
    invokeImageInfo rt argv p

/-- The `vm_args` that `main` hands to `JNI_CreateJavaVM` (lines 75-83). -/
def initArgs (rt : Runtime σ) (vm_args0 : JavaVMInitArgs) (vm0 : σ) : JavaVMInitArgs :=
  { (rt.JNI_GetDefaultJavaVMInitArgs vm_args0 vm0).1 with
    version := JNI_VERSION_1_4, options := [classpathLoop jars], nOptions := numOptions }

/-- What the call of `JNI_CreateJavaVM` on line 86 returns in a run of `main`. -/
def createResult (rt : Runtime σ) (vm_args0 : JavaVMInitArgs) (vm0 : σ) : Int × σ :=
  rt.JNI_CreateJavaVM (initArgs rt vm_args0 vm0) (rt.JNI_GetDefaultJavaVMInitArgs vm_args0 vm0).2

/-- Recognises an invocation of a static void method. -/
def JNICall.isEntryCall : JNICall → Bool
  | .CallStaticVoidMethod _ _ _ => true
  | _ => false

/-- Recognises `DestroyJavaVM`. -/
def JNICall.isDestroy : JNICall → Bool
  | .DestroyJavaVM => true
  | _ => false

/-- The calls of the argument loop: `NewStringUTF` and `SetObjectArrayElement`. -/
def JNICall.isMarshal : JNICall → Bool
  | .NewStringUTF _ _ => true
  | .SetObjectArrayElement _ _ _ => true
  | _ => false

/-! ## A reference Java runtime

The meaning of object arrays and strings is fixed by the JNI specification, not
by this program; the definitions below are the fragment of it that `main`
relies on, with allocation always succeeding. -/

/-- What a handle of the reference runtime can denote. -/
inductive JObject where
  | classObj (name : String)
  | methodID (clazz : Handle) (name sig : String)
  | stringObj (utf : String)
  | arrayObj (elemClass : Handle) (elems : List Handle)
deriving DecidableEq, Repr

/-- One call of a static void method: the class and method handles, and the
content of the argument array as the callee finds it at the time of the call
(`none` when the handle is not an array; a `none` element is a `null` element). -/
structure Invocation where
  clazz : Handle
  methodID : Handle
  args : Option (List (Option JObject))
deriving DecidableEq, Repr

/-- State of the reference runtime: handle `h > 0` denotes `heap[h-1]`. -/
structure JVM where
  createStatus : Int
  heap : List JObject
  invoked : List Invocation
deriving DecidableEq, Repr

/-- The object a handle denotes, if any. -/
def JVM.deref (s : JVM) (h : Handle) : Option JObject :=
  if h = 0 then none else s.heap[h - 1]?

/-- Allocates an object and returns its handle. -/
def JVM.alloc (o : JObject) (s : JVM) : Handle × JVM :=
  (s.heap.length + 1, { s with heap := s.heap ++ [o] })

/-- The content of an object array, element handles resolved. -/
def JVM.arrayContent (s : JVM) (h : Handle) : Option (List (Option JObject)) :=
  match s.deref h with
  | some (.arrayObj _ elems) => some (elems.map s.deref)
  | _ => none

/-- `NewObjectArray`: a negative length yields `NULL`. -/
def JVM.NewObjectArray (len : Int) (clazz init : Handle) (s : JVM) : Handle × JVM :=
  if len < 0 then (0, s) else s.alloc (.arrayObj clazz (List.replicate len.toNat init))

/-- `SetObjectArrayElement`: stores only at an index inside the array. -/
def JVM.SetObjectArrayElement (array : Handle) (index : Int) (val : Handle) (s : JVM) : JVM :=
  match s.deref array with
  | some (.arrayObj c elems) =>
    if 0 ≤ index ∧ index < elems.length then
      { s with heap := s.heap.set (array - 1) (.arrayObj c (elems.set index.toNat val)) }
    else s
  | _ => s

/-- `CallStaticVoidMethod`: records what the callee receives. -/
def JVM.CallStaticVoidMethod (clazz mid args : Handle) (s : JVM) : JVM :=
  { s with invoked := s.invoked ++ [⟨clazz, mid, s.arrayContent args⟩] }

/-- The reference runtime. -/
def refJVM : Runtime JVM where
  JNI_GetDefaultJavaVMInitArgs := fun a s => (a, s)
  JNI_CreateJavaVM := fun _ s => (s.createStatus, s)
  FindClass := fun name s => s.alloc (.classObj name)
  GetStaticMethodID := fun c name sig s => s.alloc (.methodID c name sig)
  NewObjectArray := JVM.NewObjectArray
  NewStringUTF := fun utf s => s.alloc (.stringObj utf)
  SetObjectArrayElement := JVM.SetObjectArrayElement
  CallStaticVoidMethod := JVM.CallStaticVoidMethod
  DestroyJavaVM := fun s => s

/-- A runtime state before any object exists; `status` is what
`JNI_CreateJavaVM` will return. -/
def JVM.fresh (status : Int) : JVM := { createStatus := status, heap := [], invoked := [] }

/-- Some initial content of `vm_args`. -/
def vmArgsJunk : JavaVMInitArgs :=
  { version := 0, nOptions := 7, options := [], ignoreUnrecognized := true }

end ShowinfJNI


namespace JVMLink

/-! ## `JVMLinkClient.h`: the declared interface -/

/-- The C++ types that occur in the declaration of `class JVMLinkClient`. -/
inductive CType where
  | void
  | int
  | CString
  | char
  | Byte
  | float
  | bool
  | double
  | long
  | short
  | voidPtr
  | JVMLinkObjectPtr
  | SOCKET
deriving DecidableEq, Repr

/-- A member function declaration: return type, name, parameter types. -/
structure MemberDecl where
  ret : CType
  name : String
  params : List CType
deriving DecidableEq, Repr

/-- The member functions declared in `class JVMLinkClient`, lines 42-61, in the
order of the header.  (The constructor and the destructor, lines 41 and 63,
have no return type; the data members `port` and `conn` are private.) -/
def JVMLinkClient.members : List MemberDecl :=
  [ ⟨.void, "startJava", [.int, .CString, .CString]⟩,
    ⟨.void, "shutJava", []⟩,
    ⟨.int, "establishConnection", []⟩,
    ⟨.int, "closeConnection", []⟩,
    ⟨.int, "sendMessage", [.CString]⟩,
    ⟨.int, "sendMessage", [.int]⟩,
    ⟨.CString, "readMessage", []⟩,
    ⟨.voidPtr, "readMessage", [.int]⟩,
    ⟨.JVMLinkObjectPtr, "getVar", [.CString]⟩,
    ⟨.void, "setVar", [.JVMLinkObjectPtr]⟩,
    ⟨.void, "setVar", [.CString, .int]⟩,
    ⟨.void, "setVar", [.CString, .CString]⟩,
    ⟨.void, "setVar", [.CString, .char]⟩,
    ⟨.void, "setVar", [.CString, .Byte]⟩,
    ⟨.void, "setVar", [.CString, .float]⟩,
    ⟨.void, "setVar", [.CString, .bool]⟩,
    ⟨.void, "setVar", [.CString, .double]⟩,
    ⟨.void, "setVar", [.CString, .long]⟩,
    ⟨.void, "setVar", [.CString, .short]⟩,
    ⟨.void, "exec", [.CString]⟩ ]

/-- The values a C++ function of the given return type can hand to its caller.
A function declared `void` hands back nothing: one possible outcome only.
Machine integers are integers, floating-point numbers are their bit patterns,
pointers and socket handles are addresses. -/
def CType.Val : CType → Type
  | .void => Unit
  | .int => Int
  | .CString => List (Fin 256)
  | .char => Int
  | .Byte => Int
  | .float => Nat
  | .bool => Bool
  | .double => Nat
  | .long => Int
  | .short => Int
  | .voidPtr => Nat
  | .JVMLinkObjectPtr => Nat
  | .SOCKET => Nat

/-- Modelled from the spec: the primitive kinds of a Variable, section 3
(`JVMLinkObject.h`, which would define them, is not part of the sources). -/
inductive Kind where
  | integer
  | string
  | character
  | byte
  | float
  | boolean
  | double
  | long
  | short
deriving DecidableEq, Repr

/-- Modelled from the spec: the list of the nine primitive kinds, in the order of
section 3 (`JVMLinkObject.h` is not part of the sources). -/
def Kind.all : List Kind :=
  [.integer, .string, .character, .byte, .float, .boolean, .double, .long, .short]

/-- Modelled from the spec: the primitive kind of section 3 that a C++ value type
of the header stands for, if any (`JVMLinkObject.h` is not part of the sources). -/
def CType.kind? : CType → Option Kind
  | .int => some .integer
  | .CString => some .string
  | .char => some .character
  | .Byte => some .byte
  | .float => some .float
  | .bool => some .boolean
  | .double => some .double
  | .long => some .long
  | .short => some .short
  | _ => none

/-- The declared overloads `setVar(name, value)`: named `setVar`, two parameters. -/
def JVMLinkClient.typedSetVars : List MemberDecl :=
  JVMLinkClient.members.filter (fun d => d.name = "setVar" ∧ d.params.length = 2)

/-- The value types (second parameter) of the declared overloads `setVar(name, value)`. -/
def JVMLinkClient.setVarValueTypes : List CType :=
  JVMLinkClient.typedSetVars.map (fun d => d.params.getD 1 .void)

/-- Modelled from the spec: the operations of the client listed in section 4.1,
by the name the header declares them under. -/
def clientOperations : List String :=
  ["startJava", "shutJava", "establishConnection", "closeConnection", "sendMessage",
   "readMessage", "getVar", "setVar", "exec"]

/-- The operations whose declared return type is not `void`. -/
def valueReturningOperations : List String :=
  ["establishConnection", "closeConnection", "sendMessage", "readMessage", "getVar"]

/-! ## The behaviour of the client, from the specification

`JVMLinkClient.cpp` is not part of the sources: the header declares the member
functions and nothing defines them.  What follows is the contract of
sections 3, 4.1 and 7 of the specification. -/

/-- Modelled from the spec: one byte on the wire. -/
abbrev Octet := Fin 256

/-- Modelled from the spec: the content of a `CString`, a sequence of bytes (the
type comes from a platform header that is not part of the sources). -/
abbrev CStr := List Octet

/-- Modelled from the spec: the error taxonomy of section 7 (the header declares
no error type).  A `ProtocolError` carries the message of the peer. -/
inductive ClientError where
  | LaunchError
  | ConnectionError
  | StateError
  | IOError
  | ProtocolError (msg : CStr)
  | NotFoundError
deriving DecidableEq, Repr

/-- Modelled from the spec: the value of a variable, one of the nine primitive
kinds of section 3 (`JVMLinkObject.h` is not part of the sources).  Machine
integers are integers; `float` and `double` values are their bit patterns. -/
inductive Value where
  | integer (v : Int)
  | string (s : CStr)
  | character (c : Octet)
  | byte (b : Octet)
  | float (bits : Nat)
  | boolean (b : Bool)
  | double (bits : Nat)
  | long (v : Int)
  | short (v : Int)
deriving DecidableEq, Repr

/-- Modelled from the spec: the kind of a value (the type tag of section 4.1). -/
def Value.kind : Value → Kind
  | .integer _ => .integer
  | .string _ => .string
  | .character _ => .character
  | .byte _ => .byte
  | .float _ => .float
  | .boolean _ => .boolean
  | .double _ => .double
  | .long _ => .long
  | .short _ => .short

/-- Modelled from the spec: a Variable of section 3, a name and a value
(`JVMLinkObject.h` is not part of the sources). -/
structure Variable where
  name : CStr
  value : Value
deriving DecidableEq, Repr

/-- Modelled from the spec: the kind of a variable is the kind of its value. -/
def Variable.kind (v : Variable) : Kind := v.value.kind

/-- Modelled from the spec: the invariant of a Variable, "name is non-empty". -/
def Variable.WellFormed (v : Variable) : Prop := v.name ≠ []

/-- Modelled from the spec: the request frames of section 4.1, an operation tag
(SET, GET, EXEC, SHUTDOWN), a name for SET/GET/EXEC and, for SET, a type tag
plus the value.  The byte encoding of a frame is left open by the spec. -/
inductive Request where
  | SET (name : CStr) (tag : Kind) (value : Value)
  | GET (name : CStr)
  | EXEC (code : CStr)
  | SHUTDOWN
deriving DecidableEq, Repr

/-- Modelled from the spec: what the peer sends back, section 4.1: to GET a type
tag and value or a not-found marker; to EXEC completion or the report of a
failure with a message. -/
inductive Response where
  | value (tag : Kind) (value : Value)
  | notFound
  | done
  | failed (msg : CStr)
deriving DecidableEq, Repr

/-- Modelled from the spec: the test double of section 8, a peer that stores the
variables it is sent and echoes them, and that reports a failure for the
command strings it is programmed to fail on. -/
structure Peer where
  running : Bool
  vars : List (CStr × Value)
  failing : List (CStr × CStr)
deriving DecidableEq, Repr

/-- Modelled from the spec: how the test double of section 8 answers a request
frame.  SET binds the name when the type tag matches the value (no reply); GET
echoes the bound value with its type tag, or the not-found marker; EXEC reports
the programmed failure, if any; SHUTDOWN stops the peer. -/
def Peer.handle (p : Peer) : Request → Peer × Option Response
  | .SET name tag value =>
    if tag = value.kind then
      ({ p with vars := (name, value) :: p.vars.filter (fun b => b.1 ≠ name) }, none)
    else (p, none)
  | .GET name =>
    match p.vars.lookup name with
    | some v => (p, some (.value v.kind v))
    | none => (p, some .notFound)
  | .EXEC code =>
    match p.failing.lookup code with
    | some msg => (p, some (.failed msg))
    | none => (p, some .done)
  | .SHUTDOWN => ({ p with running := false }, none)

/-- Modelled from the spec: the states of the state machine of section 4.1. -/
inductive State where
  | Unstarted
  | Started
  | Connected
  | Closed
deriving DecidableEq, Repr

/-- Modelled from the spec: the byte order of the wire, to be pinned by the
implementer (section 4.1). -/
inductive Endian where
  | big
  | little
deriving DecidableEq, Repr

/-- Modelled from the spec: a client instance (the header declares only `port`
and `conn`).  `maxLength` is the configured maximum length `readMessage()`
accepts; `ownsPeer` is the ownership flag of section 9; `sent` and `received`
are the frames written to and read from the socket so far, oldest first. -/
structure Client where
  state : State
  port : Int
  ownsPeer : Bool
  maxLength : Nat
  endian : Endian
  sent : List Request
  received : List Response
deriving DecidableEq, Repr

/-- Modelled from the spec: the outcome of an operation that talks to the peer.
`result` is how the operation ends according to sections 4.1 and 7, with its
value or with the error it fails with; then the client and the peer afterwards. -/
structure Step (α : Type) where
  result : Except ClientError α
  client : Client
  peer : Peer

/-- Modelled from the spec: the outcome of an operation on the client alone. -/
structure Local (α : Type) where
  result : Except ClientError α
  client : Client

/-- Modelled from the spec: one request/response exchange on the open
connection (member function bodies are not part of the sources).  The frame is
written, the peer handles it, and its reply, if any, is read.  A peer that is no
longer running is a transport failure, `IOError`. -/
def exchange (req : Request) (c : Client) (p : Peer) :
    Except ClientError (Option Response) × Client × Peer :=
  if p.running then
    let r := p.handle req
    (.ok r.2, { c with sent := c.sent ++ [req], received := c.received ++ r.2.toList }, r.1)
  else (.error .IOError, c, p)

/-- Modelled from the spec: `startJava` of section 4.1 (its body is not part of
the sources).  `spawned` tells whether the peer process came up within the
timeout.  The transition is `Unstarted → Started`. -/
def startJava (spawned : Bool) (c : Client) : Local Unit :=
  match c.state with
  | .Unstarted =>
    if spawned then ⟨.ok (), { c with state := .Started, ownsPeer := true }⟩
    else ⟨.error .LaunchError, c⟩
  | _ => ⟨.error .StateError, c⟩

/-- Modelled from the spec: `establishConnection` of section 4.1 (its body is not
part of the sources).  `listening` tells whether the peer accepts the
connection.  It is an error when a connection already exists. -/
def establishConnection (listening : Bool) (c : Client) : Local Unit :=
  match c.state with
  | .Connected => ⟨.error .ConnectionError, c⟩
  | _ =>
    if listening then ⟨.ok (), { c with state := .Connected }⟩
    else ⟨.error .ConnectionError, c⟩

/-- Modelled from the spec: `closeConnection` of section 4.1 (its body is not
part of the sources): closes the socket; on a connection that is not open it is
a no-op that returns success.  It does not touch the peer process. -/
def closeConnection (c : Client) : Local Unit :=
  match c.state with
  | .Connected => ⟨.ok (), { c with state := .Closed }⟩
  | _ => ⟨.ok (), c⟩

/-- Modelled from the spec: `setVar(Variable)` of section 4.1 (its body is not
part of the sources): valid only in `Connected`; sends a SET frame with the
name, the type tag and the value; fire-and-forget. -/
def setVarObject (var : Variable) (c : Client) (p : Peer) : Step Unit :=
  if c.state = .Connected then
    let r := exchange (.SET var.name var.kind var.value) c p
    match r.1 with
    | .ok _ => ⟨.ok (), r.2.1, r.2.2⟩
    | .error e => ⟨.error e, r.2.1, r.2.2⟩
  else ⟨.error .StateError, c, p⟩

/-- Modelled from the spec: the typed overloads `setVar(name, value)` of
section 4.1, one for each constructor of `Value` (their bodies are not part of
the sources). -/
def setVar (name : CStr) (value : Value) (c : Client) (p : Peer) : Step Unit :=
  setVarObject ⟨name, value⟩ c p

/-- Modelled from the spec: `getVar(name)` of section 4.1 (its body is not part
of the sources): valid only in `Connected`; sends a GET frame and waits for the
reply; `NotFoundError` when the peer reports no such variable, `ProtocolError`
on a malformed reply (none, of the wrong shape, or with a type tag that does not
match the value). -/
def getVar (name : CStr) (c : Client) (p : Peer) : Step Variable :=
  if c.state = .Connected then
    let r := exchange (.GET name) c p
    match r.1 with
    | .ok (some (.value tag v)) =>
      if tag = v.kind then ⟨.ok ⟨name, v⟩, r.2.1, r.2.2⟩
      else ⟨.error (.ProtocolError []), r.2.1, r.2.2⟩
    | .ok (some .notFound) => ⟨.error .NotFoundError, r.2.1, r.2.2⟩
    | .ok _ => ⟨.error (.ProtocolError []), r.2.1, r.2.2⟩
    | .error e => ⟨.error e, r.2.1, r.2.2⟩
  else ⟨.error .StateError, c, p⟩

/-- Modelled from the spec: `exec(code)` of section 4.1 (its body is not part of
the sources): valid only in `Connected`; sends the command string uninterpreted;
a failure reported by the peer is a `ProtocolError` with the peer's message. -/
def exec (code : CStr) (c : Client) (p : Peer) : Step Unit :=
  if c.state = .Connected then
    let r := exchange (.EXEC code) c p
    match r.1 with
    | .ok (some .done) => ⟨.ok (), r.2.1, r.2.2⟩
    | .ok (some (.failed msg)) => ⟨.error (.ProtocolError msg), r.2.1, r.2.2⟩
    | .ok _ => ⟨.error (.ProtocolError []), r.2.1, r.2.2⟩
    | .error e => ⟨.error e, r.2.1, r.2.2⟩
  else ⟨.error .StateError, c, p⟩

/-- Modelled from the spec: the length a 4-byte length prefix declares
(section 4.1: strings are length-prefixed, 4-byte length, fixed endianness),
read as a signed 32-bit integer so that a negative length can be declared. -/
def declaredLength (e : Endian) (b0 b1 b2 b3 : Octet) : Int :=
  let u : Nat :=
    match e with
    | .big => ((b0.val * 256 + b1.val) * 256 + b2.val) * 256 + b3.val
    | .little => ((b3.val * 256 + b2.val) * 256 + b1.val) * 256 + b0.val
  if u < 2 ^ 31 then (u : Int) else (u : Int) - 2 ^ 32

/-- Modelled from the spec: the outcome of `readMessage()`, the string or the
error it ends with, the bytes left unread, and the sizes of the buffers
allocated on the way. -/
structure ReadOutcome where
  result : Except ClientError CStr
  rest : List Octet
  allocated : List Nat
deriving Repr

/-- Modelled from the spec: `readMessage()` of section 4.1 (its body is not part
of the sources), on the bytes that arrive on the socket: valid only in
`Connected`; reads the 4-byte length prefix; a negative declared length or one
above the configured maximum is rejected with `IOError` before any buffer is
allocated; otherwise a buffer of the declared length is allocated and filled,
and a stream that ends early (connection loss) is an `IOError`. -/
def readMessage (c : Client) (incoming : List Octet) : ReadOutcome :=
  if c.state = .Connected then
    match incoming with
    | b0 :: b1 :: b2 :: b3 :: payload =>
      let n := declaredLength c.endian b0 b1 b2 b3
      if n < 0 ∨ (c.maxLength : Int) < n then ⟨.error .IOError, payload, []⟩
      else if payload.length < n.toNat then ⟨.error .IOError, [], [n.toNat]⟩
      else ⟨.ok (payload.take n.toNat), payload.drop n.toNat, [n.toNat]⟩
    | _ => ⟨.error .IOError, [], []⟩
  else ⟨.error .StateError, incoming, []⟩

/-- A client with an open connection, used to instantiate the theorems. -/
def connectedClient : Client :=
  { state := .Connected, port := 20345, ownsPeer := true, maxLength := 1024, endian := .big,
    sent := [], received := [] }

/-- A running test double with no variable bound. -/
def emptyPeer : Peer := { running := true, vars := [], failing := [] }

end JVMLink

namespace ShowinfJNI

variable {σ : Type}

/-! ## The classpath option -/

theorem intercalate_go_eq_foldl (sep : String) (l : List String) (acc : String) :
    String.intercalate.go acc sep l = l.foldl (fun acc a => (acc ++ sep) ++ a) acc := by
  induction l generalizing acc with
  | nil => rfl
  | cons a as ih => simp [String.intercalate.go, ih]

theorem append_foldl_sep (sep pre : String) (l : List String) (acc : String) :
    pre ++ l.foldl (fun acc a => (acc ++ sep) ++ a) acc
      = l.foldl (fun acc a => (acc ++ sep) ++ a) (pre ++ acc) := by
  induction l generalizing acc with
  | nil => rfl
  | cons a as ih =>
    simp only [List.foldl_cons]
    rw [ih]
    simp only [String.append_assoc]

theorem classpath_fold_tail (pre js : List String) (hpre : pre ≠ []) (acc : String) :
    (List.range' pre.length js.length).foldl
        (fun classpath i => (classpath ++ (if i = 0 then "=" else ":")) ++ (pre ++ js).getD i "")
        acc
      = js.foldl (fun acc a => (acc ++ ":") ++ a) acc := by
  induction js generalizing pre acc with
  | nil => rfl
  | cons j js ih =>
    have hlen : pre.length ≠ 0 := by
      intro h0; exact hpre (List.length_eq_zero.mp h0)
    have hget : (pre ++ j :: js).getD pre.length "" = j := by
      rw [List.getD_eq_getElem?_getD, List.getElem?_append_right (le_refl _)]
      simp
    have hstep := ih (pre ++ [j]) (by simp) ((acc ++ ":") ++ j)
    simp only [List.length_append, List.length_singleton, List.append_assoc,
      List.singleton_append] at hstep
    simp only [List.length_cons, List.range', List.foldl_cons, if_neg hlen, hget]
    exact hstep

theorem classpathLoop_cons (j : String) (js : List String) :
    classpathLoop (j :: js) = "-Djava.class.path=" ++ ":".intercalate (j :: js) := by
  have h := classpath_fold_tail [j] js (by simp) (("-Djava.class.path" ++ "=") ++ j)
  simp only [List.length_singleton, List.singleton_append] at h
  have hr : List.range (js.length + 1) = 0 :: List.range' 1 js.length := by
    rw [List.range_eq_range', List.range'_succ]
  have hd : (j :: js).getD 0 "" = j := rfl
  have hp : "-Djava.class.path" ++ "=" = "-Djava.class.path=" := by decide
  rw [classpathLoop, List.length_cons, hr, List.foldl_cons, if_pos rfl, hd, h,
    String.intercalate, intercalate_go_eq_foldl, append_foldl_sep, hp]

/-! ## The control flow of `main` -/

theorem marshalArg_trace (rt : Runtime σ) (argv : List String) (args : Handle) (p : Proc σ)
    (i : Nat) :
    ∃ m, (marshalArg rt argv args p i).trace = p.trace ++ m ∧ (∀ c ∈ m, c.isMarshal = true) ∧
      (marshalArg rt argv args p i).stdout = p.stdout := by
  refine ⟨[.NewStringUTF (argv.getD i "") (rt.NewStringUTF (argv.getD i "") p.vm).1,
    .SetObjectArrayElement args ((i : Int) - 1) (rt.NewStringUTF (argv.getD i "") p.vm).1],
    ?_, ?_, rfl⟩
  · simp [marshalArg, Proc.call]
  · intro c hc
    simp only [List.mem_cons, List.mem_singleton, List.not_mem_nil, or_false] at hc
    rcases hc with rfl | rfl <;> rfl

theorem marshal_fold_trace (rt : Runtime σ) (argv : List String) (args : Handle)
    (is : List Nat) (p : Proc σ) :
    ∃ m, (is.foldl (marshalArg rt argv args) p).trace = p.trace ++ m ∧
      (∀ c ∈ m, c.isMarshal = true) ∧
      (is.foldl (marshalArg rt argv args) p).stdout = p.stdout := by
  induction is generalizing p with
  | nil => exact ⟨[], by simp, by simp, rfl⟩
  | cons i is ih =>
    obtain ⟨m1, h1, hm1, ho1⟩ := marshalArg_trace rt argv args p i
    obtain ⟨m2, h2, hm2, ho2⟩ := ih (marshalArg rt argv args p i)
    refine ⟨m1 ++ m2, ?_, ?_, ?_⟩
    · rw [List.foldl_cons, h2, h1, List.append_assoc]
    · intro c hc
      rcases List.mem_append.mp hc with h | h
      · exact hm1 c h
      · exact hm2 c h
    · rw [List.foldl_cons, ho2, ho1]

theorem main_of_create_failed (rt : Runtime σ) (argv : List String) (vm_args0 : JavaVMInitArgs)
    (vm0 : σ) (h : (createResult rt vm_args0 vm0).1 ≠ 0) :
    (main rt argv vm_args0 vm0).exitCode = 1 ∧
    (main rt argv vm_args0 vm0).stdout
      = [.str ("Classpath = " ++ classpathLoop jars), .endl,
         .str "Failed to create the JVM", .endl] ∧
    (main rt argv vm_args0 vm0).trace
      = [.JNI_GetDefaultJavaVMInitArgs,
         .JNI_CreateJavaVM (initArgs rt vm_args0 vm0) (createResult rt vm_args0 vm0).1] := by
  have h2 : (rt.JNI_CreateJavaVM
      { (rt.JNI_GetDefaultJavaVMInitArgs vm_args0 vm0).1 with
        version := JNI_VERSION_1_4, options := [classpathLoop jars], nOptions := numOptions }
      (rt.JNI_GetDefaultJavaVMInitArgs vm_args0 vm0).2).1 ≠ 0 := h
  simp only [main, Proc.print, Proc.call, ne_eq, h2, not_false_eq_true, if_true]
  simp [initArgs, createResult]

theorem main_of_create_ok (rt : Runtime σ) (argv : List String) (vm_args0 : JavaVMInitArgs)
    (vm0 : σ) (h : (createResult rt vm_args0 vm0).1 = 0) :
    ∃ cls mid sc args m,
      (main rt argv vm_args0 vm0).trace
        = [.JNI_GetDefaultJavaVMInitArgs,
           .JNI_CreateJavaVM (initArgs rt vm_args0 vm0) 0,
           .FindClass "loci/formats/tools/ImageInfo" cls,
           .GetStaticMethodID cls "main" "([Ljava/lang/String;)V" mid,
           .FindClass "java/lang/String" sc,
           .NewObjectArray ((argv.length : Int) - 1) sc 0 args]
          ++ m ++ [.CallStaticVoidMethod cls mid args, .DestroyJavaVM] ∧
      (∀ c ∈ m, c.isMarshal = true) ∧
      (main rt argv vm_args0 vm0).exitCode = 0 := by
  have h2 : (rt.JNI_CreateJavaVM
      { (rt.JNI_GetDefaultJavaVMInitArgs vm_args0 vm0).1 with
        version := JNI_VERSION_1_4, options := [classpathLoop jars], nOptions := numOptions }
      (rt.JNI_GetDefaultJavaVMInitArgs vm_args0 vm0).2).1 = 0 := h
  simp only [main, Proc.print, Proc.call, ne_eq, h2, not_true_eq_false, if_false]
  simp only [invokeImageInfo, marshalLoop, Proc.print, Proc.call]
  generalize hp0 : (rt.JNI_CreateJavaVM _ _).2 = s1
  generalize hr1 : rt.FindClass "loci/formats/tools/ImageInfo" s1 = r1
  generalize hr2 : rt.GetStaticMethodID r1.1 "main" "([Ljava/lang/String;)V" r1.2 = r2
  generalize hr3 : rt.FindClass "java/lang/String" r2.2 = r3
  generalize hr4 : rt.NewObjectArray ((argv.length : Int) - 1) r3.1 0 r3.2 = r4
  obtain ⟨m, hm, hmar, -⟩ := marshal_fold_trace rt argv r4.1 (List.range' 1 (argv.length - 1))
    { vm := r4.2,
      trace := [] ++ [JNICall.JNI_GetDefaultJavaVMInitArgs] ++
        [JNICall.JNI_CreateJavaVM
          { (rt.JNI_GetDefaultJavaVMInitArgs vm_args0 vm0).1 with
            version := JNI_VERSION_1_4, options := [classpathLoop jars],
            nOptions := numOptions } 0] ++
        [JNICall.FindClass "loci/formats/tools/ImageInfo" r1.1] ++
        [JNICall.GetStaticMethodID r1.1 "main" "([Ljava/lang/String;)V" r2.1] ++
        [JNICall.FindClass "java/lang/String" r3.1] ++
        [JNICall.NewObjectArray ((argv.length : Int) - 1) r3.1 0 r4.1],
      stdout := [] ++ [Out.str ("Classpath = " ++ classpathLoop jars), Out.endl] ++
        [Out.str "Got ImageInfo class: ", Out.ptr r1.1, Out.endl] ++
        [Out.str "Got main method: ", Out.ptr r2.1, Out.endl] ++
        [Out.str "Got String class: ", Out.ptr r3.1, Out.endl] }
  refine ⟨r1.1, r2.1, r3.1, r4.1, m, ?_, hmar, trivial⟩
  rw [hm]
  simp [initArgs]

/-! ## The argument array in the reference runtime -/

theorem getElem?_append_cons_length {α : Type} (H : List α) (x : α) (t : List α) :
    (H ++ x :: t)[H.length]? = some x := by
  rw [List.getElem?_append_right (le_refl _)]
  simp

theorem set_append_cons_length {α : Type} (H : List α) (x y : α) (t : List α) :
    (H ++ x :: t).set H.length y = H ++ y :: t := by
  induction H with
  | nil => rfl
  | cons a H ih => simp [ih]

theorem marshal_heap (argv : List String) (H0 : List JObject) (c : Handle) (st : Int)
    (inv : List Invocation) (k : Nat) (hk : k ≤ argv.length - 1) (p : Proc JVM)
    (hp : p.vm = ⟨st, H0 ++ [.arrayObj c (List.replicate (argv.length - 1) 0)], inv⟩) :
    ((List.range' 1 k).foldl (marshalArg refJVM argv (H0.length + 1)) p).vm
      = ⟨st, H0 ++ .arrayObj c ((List.range k).map (fun j => H0.length + 2 + j)
                ++ List.replicate (argv.length - 1 - k) 0)
              :: (List.range k).map (fun j => .stringObj (argv.getD (j + 1) "")), inv⟩ := by
  induction k with
  | zero => simp [hp]
  | succ k ih =>
    have ih := ih (Nat.le_of_succ_le hk)
    rw [List.range'_1_concat, List.foldl_append, List.foldl_cons, List.foldl_nil]
    generalize (List.range' 1 k).foldl (marshalArg refJVM argv (H0.length + 1)) p = q at ih
    have hk' : k < argv.length - 1 := hk
    have hidx : ((1 + k : Nat) : Int) - 1 = (k : Int) := by push_cast; ring
    have hrep : List.replicate (argv.length - 1 - k) (0 : Handle)
        = 0 :: List.replicate (argv.length - 1 - (k + 1)) 0 := by
      have : argv.length - 1 - k = (argv.length - 1 - (k + 1)) + 1 := by omega
      rw [this, List.replicate_succ]
    simp only [marshalArg, Proc.call, refJVM, JVM.alloc, ih, hidx, JVM.SetObjectArrayElement,
      JVM.deref, Nat.add_sub_cancel, Nat.succ_ne_zero, if_false, List.cons_append,
      List.append_assoc, getElem?_append_cons_length]
    have hlen : ((List.range k).map (fun j => H0.length + 2 + j)).length = k := by simp
    have hcond : (0 : Int) ≤ (k : Int) ∧ (k : Int) <
        (((List.range k).map (fun j => H0.length + 2 + j)
          ++ List.replicate (argv.length - 1 - k) 0).length : Int) := by
      refine ⟨Int.ofNat_nonneg k, ?_⟩
      simp only [List.length_append, List.length_map, List.length_range, List.length_replicate]
      omega
    have hset : ((List.range k).map (fun j => H0.length + 2 + j)
          ++ 0 :: List.replicate (argv.length - 1 - (k + 1)) 0).set k (H0.length + 2 + k)
        = (List.range k).map (fun j => H0.length + 2 + j)
          ++ (H0.length + 2 + k) :: List.replicate (argv.length - 1 - (k + 1)) 0 := by
      have h := set_append_cons_length ((List.range k).map (fun j => H0.length + 2 + j)) 0
        (H0.length + 2 + k) (List.replicate (argv.length - 1 - (k + 1)) 0)
      rwa [hlen] at h
    have hnew : (H0 ++ JObject.arrayObj c ((List.range k).map (fun j => H0.length + 2 + j)
          ++ List.replicate (argv.length - 1 - k) 0)
          :: (List.range k).map (fun j => JObject.stringObj (argv.getD (j + 1) ""))).length + 1
        = H0.length + 2 + k := by
      simp only [List.length_append, List.length_cons, List.length_map, List.length_range]
      omega
    rw [if_pos hcond, set_append_cons_length, hnew, Int.toNat_ofNat, hrep, hset,
      List.range_succ, List.map_append, List.map_append, Nat.add_comm 1 k]
    simp

theorem map_range_getD {β : Type} (l : List String) (g : String → β) :
    (List.range l.length).map (fun j => g (l.getD j "")) = l.map g := by
  apply List.ext_getElem
  · simp
  · intro n h1 h2
    have hn : n < l.length := by simpa using h2
    simp [List.getD_eq_getElem?_getD, List.getElem?_eq_getElem hn]

theorem map_deref_marshalled (H0 : List JObject) (arr : JObject) (st : Int)
    (inv : List Invocation) (f : Nat → JObject) (n : Nat) :
    ((List.range n).map (fun j => H0.length + 2 + j)).map
        (JVM.deref ⟨st, H0 ++ arr :: (List.range n).map f, inv⟩)
      = (List.range n).map (fun j => some (f j)) := by
  rw [List.map_map]
  apply List.map_congr_left
  intro j hj
  have hj' : j < n := List.mem_range.mp hj
  have hidx : H0.length + 2 + j - 1 = H0.length + (1 + j) := by omega
  have hne : ¬ (H0.length + 2 + j = 0) := by omega
  simp only [Function.comp, JVM.deref, hne, if_false, hidx]
  rw [List.getElem?_append_right (Nat.le_add_right _ _), Nat.add_sub_cancel_left,
    Nat.add_comm 1 j, List.getElem?_cons_succ]
  simp [List.getElem?_range hj', hj']

theorem map_range_tail {β : Type} (argv : List String) (g : String → β) :
    (List.range (argv.length - 1)).map (fun j => g (argv.getD (j + 1) "")) = argv.tail.map g := by
  cases argv with
  | nil => rfl
  | cons a as => exact map_range_getD as g

theorem invokeImageInfo_refJVM_invoked (argv : List String) (p : Proc JVM)
    (hargc : 1 ≤ argv.length) :
    (invokeImageInfo refJVM argv p).vm.invoked
      = p.vm.invoked ++ [⟨p.vm.heap.length + 1, p.vm.heap.length + 2,
          some (argv.tail.map (fun a => some (JObject.stringObj a)))⟩] := by
  obtain ⟨⟨st, heap, inv⟩, tr, out⟩ := p
  have hlen : ¬ ((argv.length : Int) - 1 < 0) := by omega
  have htn : ((argv.length : Int) - 1).toNat = argv.length - 1 := by omega
  have e1 : ∀ (name : String) (s : JVM), refJVM.FindClass name s = s.alloc (.classObj name) :=
    fun _ _ => rfl
  have e2 : ∀ (c : Handle) (name sig : String) (s : JVM),
      refJVM.GetStaticMethodID c name sig s = s.alloc (.methodID c name sig) := fun _ _ _ _ => rfl
  have e3 : ∀ (len : Int) (c i : Handle) (s : JVM),
      refJVM.NewObjectArray len c i s = JVM.NewObjectArray len c i s := fun _ _ _ _ => rfl
  have e4 : ∀ (c m a : Handle) (s : JVM),
      refJVM.CallStaticVoidMethod c m a s = JVM.CallStaticVoidMethod c m a s := fun _ _ _ _ => rfl
  have e5 : ∀ s : JVM, refJVM.DestroyJavaVM s = s := fun _ => rfl
  simp only [invokeImageInfo, marshalLoop, Proc.print, Proc.call, e1, e2, e3, e4, e5, JVM.alloc,
    JVM.NewObjectArray, hlen, if_false, htn]
  have hloop := marshal_heap argv (heap ++ [JObject.classObj "loci/formats/tools/ImageInfo"]
      ++ [JObject.methodID (heap.length + 1) "main" "([Ljava/lang/String;)V"]
      ++ [JObject.classObj "java/lang/String"])
    ((heap ++ [JObject.classObj "loci/formats/tools/ImageInfo"]
      ++ [JObject.methodID (heap.length + 1) "main" "([Ljava/lang/String;)V"]).length + 1)
    st inv (argv.length - 1) (le_refl _)
  rw [hloop _ rfl]
  simp only [JVM.CallStaticVoidMethod, JVM.arrayContent, JVM.deref, Nat.add_sub_cancel,
    Nat.succ_ne_zero, if_false, getElem?_append_cons_length, Nat.sub_self, List.replicate_zero,
    List.append_nil]
  rw [map_deref_marshalled, map_range_tail argv (fun a => some (JObject.stringObj a))]
  simp

theorem main_refJVM_invoked (argv : List String) (vm_args0 : JavaVMInitArgs) (s0 : JVM)
    (hargc : 1 ≤ argv.length) (hok : s0.createStatus = 0) :
    (main refJVM argv vm_args0 s0).vm.invoked
      = s0.invoked ++ [⟨s0.heap.length + 1, s0.heap.length + 2,
          some (argv.tail.map (fun a => some (JObject.stringObj a)))⟩] := by
  have hst : (refJVM.JNI_CreateJavaVM
      { (refJVM.JNI_GetDefaultJavaVMInitArgs vm_args0 s0).1 with
        version := JNI_VERSION_1_4, options := [classpathLoop jars], nOptions := numOptions }
      (refJVM.JNI_GetDefaultJavaVMInitArgs vm_args0 s0).2).1 = 0 := hok
  simp only [main, Proc.print, Proc.call, ne_eq, hst, not_true_eq_false, if_false]
  rw [invokeImageInfo_refJVM_invoked _ _ hargc]
  rfl

theorem classpathLoop_jars : classpathLoop jars = "-Djava.class.path=loci_tools.jar" := by
  rw [jars, classpathLoop_cons]
  decide

theorem getElem?_tail_map {β : Type} (argv : List String) (g : String → β) (i : Nat)
    (h1 : 1 ≤ i) (h2 : i < argv.length) :
    (argv.tail.map g)[i - 1]? = some (g (argv.getD i "")) := by
  cases argv with
  | nil => simp at h2
  | cons a as =>
    obtain ⟨j, rfl⟩ : ∃ j, i = j + 1 := ⟨i - 1, by omega⟩
    have hj : j < as.length := by simpa using h2
    simp [List.getD_eq_getElem?_getD, List.getElem?_eq_getElem hj]

/-! ## Properties of `main` -/

/-- C9: the option string built by the classpath loop is `-Djava.class.path=`
followed by the jar names joined with `:`, for every non-empty jar table; for
the table of the program it is `-Djava.class.path=loci_tools.jar`, and this is
the string `main` puts into the `vm_args` it builds. -/
theorem classpath_option_string (jarTable : List String) (h : jarTable ≠ [])
    (rt : Runtime σ) (vm_args0 : JavaVMInitArgs) (vm0 : σ) :
    classpathLoop jarTable = "-Djava.class.path=" ++ ":".intercalate jarTable ∧
    classpathLoop jars = "-Djava.class.path=loci_tools.jar" ∧
    (initArgs rt vm_args0 vm0).options = ["-Djava.class.path=loci_tools.jar"] := by
  refine ⟨?_, classpathLoop_jars, ?_⟩
  · cases jarTable with
    | nil => exact absurd rfl h
    | cons j js => exact classpathLoop_cons j js
  · simp [initArgs, classpathLoop_jars]

theorem classpath_option_string_witness :
    ["a.jar", "b.jar", "c.jar"] ≠ [] ∧
    classpathLoop ["a.jar", "b.jar", "c.jar"]
      = "-Djava.class.path=" ++ ":".intercalate ["a.jar", "b.jar", "c.jar"] ∧
    classpathLoop jars = "-Djava.class.path=loci_tools.jar" ∧
    (initArgs refJVM vmArgsJunk (JVM.fresh 0)).options = ["-Djava.class.path=loci_tools.jar"] :=
  ⟨by decide, classpath_option_string ["a.jar", "b.jar", "c.jar"] (by decide) refJVM vmArgsJunk
    (JVM.fresh 0)⟩

/-- C4: with `argc >= 1` and a virtual machine that was created, the array the
entry point receives has length `argc - 1` and holds at index `i - 1` the Java
string made from `argv[i]`, for `1 <= i < argc`: exactly `argv[1..argc-1]` in
order, without `argv[0]`.  (Reference runtime; the entry point is called once.) -/
theorem main_passes_argv_tail (argv : List String) (vm_args0 : JavaVMInitArgs) (s0 : JVM)
    (hargc : 1 ≤ argv.length) (hok : s0.createStatus = 0) :
    ∃ cls mid elems,
      (main refJVM argv vm_args0 s0).vm.invoked = s0.invoked ++ [⟨cls, mid, some elems⟩] ∧
      (elems.length : Int) = (argv.length : Int) - 1 ∧
      (∀ i, 1 ≤ i → i < argv.length →
        elems[i - 1]? = some (some (JObject.stringObj (argv.getD i "")))) ∧
      elems = argv.tail.map (fun a => some (JObject.stringObj a)) := by
  refine ⟨_, _, _, main_refJVM_invoked argv vm_args0 s0 hargc hok, ?_, ?_, rfl⟩
  · simp only [List.length_map, List.length_tail]
    omega
  · intro i h1 h2
    exact getElem?_tail_map argv (fun a => some (JObject.stringObj a)) i h1 h2

theorem main_passes_argv_tail_witness :
    1 ≤ ["showinfJNI", "a.tif", "-nopix"].length ∧ (JVM.fresh 0).createStatus = 0 ∧
    ∃ cls mid elems,
      (main refJVM ["showinfJNI", "a.tif", "-nopix"] vmArgsJunk (JVM.fresh 0)).vm.invoked
        = (JVM.fresh 0).invoked ++ [⟨cls, mid, some elems⟩] ∧
      (elems.length : Int) = ((["showinfJNI", "a.tif", "-nopix"].length : Nat) : Int) - 1 ∧
      (∀ i, 1 ≤ i → i < ["showinfJNI", "a.tif", "-nopix"].length →
        elems[i - 1]?
          = some (some (JObject.stringObj (["showinfJNI", "a.tif", "-nopix"].getD i "")))) ∧
      elems = ["showinfJNI", "a.tif", "-nopix"].tail.map (fun a => some (JObject.stringObj a)) :=
  ⟨by decide, rfl,
    main_passes_argv_tail ["showinfJNI", "a.tif", "-nopix"] vmArgsJunk (JVM.fresh 0) (by decide) rfl⟩

/-- C5: in every run in which `JNI_CreateJavaVM` returns zero, the calls `main`
makes are, in order: the two set-up calls, `FindClass` for
`loci/formats/tools/ImageInfo` giving `cls`, `GetStaticMethodID` for `cls`,
`main`, `([Ljava/lang/String;)V` giving `mid`, the calls that build the argument
array, then `CallStaticVoidMethod(cls, mid, args)` and last `DestroyJavaVM`; both
of these occur exactly once. -/
theorem entry_point_once_then_destroy (rt : Runtime σ) (argv : List String)
    (vm_args0 : JavaVMInitArgs) (vm0 : σ)
    (hcreated : ∃ a, JNICall.JNI_CreateJavaVM a 0 ∈ (main rt argv vm_args0 vm0).trace) :
    ∃ a cls mid sc args m,
      (main rt argv vm_args0 vm0).trace
        = [.JNI_GetDefaultJavaVMInitArgs,
           .JNI_CreateJavaVM a 0,
           .FindClass "loci/formats/tools/ImageInfo" cls,
           .GetStaticMethodID cls "main" "([Ljava/lang/String;)V" mid,
           .FindClass "java/lang/String" sc,
           .NewObjectArray ((argv.length : Int) - 1) sc 0 args]
          ++ m ++ [.CallStaticVoidMethod cls mid args, .DestroyJavaVM] ∧
      (∀ c ∈ m, c.isMarshal = true) ∧
      (main rt argv vm_args0 vm0).trace.filter JNICall.isEntryCall
        = [.CallStaticVoidMethod cls mid args] ∧
      (main rt argv vm_args0 vm0).trace.filter JNICall.isDestroy = [.DestroyJavaVM] ∧
      (main rt argv vm_args0 vm0).trace.getLast? = some .DestroyJavaVM := by
  by_cases h0 : (createResult rt vm_args0 vm0).1 = 0
  · obtain ⟨cls, mid, sc, args, m, htr, hm, -⟩ := main_of_create_ok rt argv vm_args0 vm0 h0
    have hE : m.filter JNICall.isEntryCall = [] := by
      rw [List.filter_eq_nil_iff]
      intro c hc
      have := hm c hc
      cases c <;> simp_all [JNICall.isMarshal, JNICall.isEntryCall]
    have hD : m.filter JNICall.isDestroy = [] := by
      rw [List.filter_eq_nil_iff]
      intro c hc
      have := hm c hc
      cases c <;> simp_all [JNICall.isMarshal, JNICall.isDestroy]
    refine ⟨_, cls, mid, sc, args, m, htr, hm, ?_, ?_, ?_⟩
    · rw [htr]
      simp [List.filter_append, hE, List.filter_cons, JNICall.isEntryCall]
    · rw [htr]
      simp [List.filter_append, hD, List.filter_cons, JNICall.isDestroy]
    · rw [htr, List.getLast?_append]
      rfl
  · exfalso
    obtain ⟨a, ha⟩ := hcreated
    rw [(main_of_create_failed rt argv vm_args0 vm0 h0).2.2] at ha
    simp only [List.mem_cons, List.mem_singleton, List.not_mem_nil, or_false] at ha
    rcases ha with ha | ha
    · cases ha
    · injection ha with _ hst
      exact h0 hst.symm

theorem entry_point_once_then_destroy_witness :
    (∃ a, JNICall.JNI_CreateJavaVM a 0
        ∈ (main refJVM ["showinfJNI", "a.tif"] vmArgsJunk (JVM.fresh 0)).trace) ∧
    ∃ a cls mid sc args m,
      (main refJVM ["showinfJNI", "a.tif"] vmArgsJunk (JVM.fresh 0)).trace
        = [.JNI_GetDefaultJavaVMInitArgs,
           .JNI_CreateJavaVM a 0,
           .FindClass "loci/formats/tools/ImageInfo" cls,
           .GetStaticMethodID cls "main" "([Ljava/lang/String;)V" mid,
           .FindClass "java/lang/String" sc,
           .NewObjectArray (((["showinfJNI", "a.tif"].length : Nat) : Int) - 1) sc 0 args]
          ++ m ++ [.CallStaticVoidMethod cls mid args, .DestroyJavaVM] ∧
      (∀ c ∈ m, c.isMarshal = true) ∧
      (main refJVM ["showinfJNI", "a.tif"] vmArgsJunk (JVM.fresh 0)).trace.filter
          JNICall.isEntryCall = [.CallStaticVoidMethod cls mid args] ∧
      (main refJVM ["showinfJNI", "a.tif"] vmArgsJunk (JVM.fresh 0)).trace.filter
          JNICall.isDestroy = [.DestroyJavaVM] ∧
      (main refJVM ["showinfJNI", "a.tif"] vmArgsJunk (JVM.fresh 0)).trace.getLast?
        = some .DestroyJavaVM :=
  ⟨⟨⟨65540, 1, ["-Djava.class.path=loci_tools.jar"], true⟩, by decide⟩,
    entry_point_once_then_destroy refJVM ["showinfJNI", "a.tif"] vmArgsJunk (JVM.fresh 0)
      ⟨⟨65540, 1, ["-Djava.class.path=loci_tools.jar"], true⟩, by decide⟩⟩

/-- C10: in every run in which `JNI_CreateJavaVM` returns a non-zero status,
`main` prints `Failed to create the JVM` (after the classpath line), the exit
status of the process is 1, and the only JNI calls made are
`JNI_GetDefaultJavaVMInitArgs` and `JNI_CreateJavaVM`: no `FindClass`, no
`GetStaticMethodID`, no `CallStaticVoidMethod`, no `DestroyJavaVM`. -/
theorem create_failure_exits (rt : Runtime σ) (argv : List String)
    (vm_args0 : JavaVMInitArgs) (vm0 : σ)
    (hfailed : ∃ a status, status ≠ 0 ∧
      JNICall.JNI_CreateJavaVM a status ∈ (main rt argv vm_args0 vm0).trace) :
    (main rt argv vm_args0 vm0).stdout
      = [.str "Classpath = -Djava.class.path=loci_tools.jar", .endl,
         .str "Failed to create the JVM", .endl] ∧
    (main rt argv vm_args0 vm0).exitCode = 1 ∧
    (∃ a status, status ≠ 0 ∧ (main rt argv vm_args0 vm0).trace
        = [.JNI_GetDefaultJavaVMInitArgs, .JNI_CreateJavaVM a status]) ∧
    (∀ c ∈ (main rt argv vm_args0 vm0).trace,
      (∀ n h, c ≠ .FindClass n h) ∧ (∀ k n g h, c ≠ .GetStaticMethodID k n g h) ∧
      c.isEntryCall = false ∧ c.isDestroy = false) := by
  by_cases h0 : (createResult rt vm_args0 vm0).1 = 0
  · exfalso
    obtain ⟨cls, mid, sc, args, m, htr, hm, -⟩ := main_of_create_ok rt argv vm_args0 vm0 h0
    obtain ⟨a, status, hne, ha⟩ := hfailed
    rw [htr] at ha
    simp only [List.mem_append, List.mem_cons, List.mem_singleton, List.not_mem_nil,
      or_false] at ha
    rcases ha with ((ha | ha | ha | ha | ha | ha) | ha) | ha | ha <;>
      first
      | (have hmar := hm _ ha; simp [JNICall.isMarshal] at hmar)
      | (cases ha; exact hne rfl)
      | cases ha
  · obtain ⟨hexit, hout, htr⟩ := main_of_create_failed rt argv vm_args0 vm0 h0
    refine ⟨?_, hexit, ⟨_, _, h0, htr⟩, ?_⟩
    · rw [hout, classpathLoop_jars]
      rfl
    · intro c hc
      rw [htr] at hc
      simp only [List.mem_cons, List.mem_singleton, List.not_mem_nil, or_false] at hc
      rcases hc with rfl | rfl <;> simp [JNICall.isEntryCall, JNICall.isDestroy]

theorem create_failure_exits_witness :
    (∃ a status, status ≠ 0 ∧ JNICall.JNI_CreateJavaVM a status
        ∈ (main refJVM ["showinfJNI", "a.tif"] vmArgsJunk (JVM.fresh (-1))).trace) ∧
    (main refJVM ["showinfJNI", "a.tif"] vmArgsJunk (JVM.fresh (-1))).stdout
      = [.str "Classpath = -Djava.class.path=loci_tools.jar", .endl,
         .str "Failed to create the JVM", .endl] ∧
    (main refJVM ["showinfJNI", "a.tif"] vmArgsJunk (JVM.fresh (-1))).exitCode = 1 ∧
    (∃ a status, status ≠ 0 ∧
      (main refJVM ["showinfJNI", "a.tif"] vmArgsJunk (JVM.fresh (-1))).trace
        = [.JNI_GetDefaultJavaVMInitArgs, .JNI_CreateJavaVM a status]) ∧
    (∀ c ∈ (main refJVM ["showinfJNI", "a.tif"] vmArgsJunk (JVM.fresh (-1))).trace,
      (∀ n h, c ≠ .FindClass n h) ∧ (∀ k n g h, c ≠ .GetStaticMethodID k n g h) ∧
      c.isEntryCall = false ∧ c.isDestroy = false) :=
  ⟨⟨⟨65540, 1, ["-Djava.class.path=loci_tools.jar"], true⟩, -1, by decide, by decide⟩,
    create_failure_exits refJVM ["showinfJNI", "a.tif"] vmArgsJunk (JVM.fresh (-1))
      ⟨⟨65540, 1, ["-Djava.class.path=loci_tools.jar"], true⟩, -1, by decide, by decide⟩⟩

end ShowinfJNI

namespace JVMLink

/-! ## The declared interface -/

theorem retVal_distinct_iff (t : CType) : (∃ a b : t.Val, a ≠ b) ↔ t ≠ .void := by
  have hI : ∃ a b : Int, a ≠ b := ⟨0, 1, by decide⟩
  have hN : ∃ a b : Nat, a ≠ b := ⟨0, 1, by decide⟩
  have hB : ∃ a b : Bool, a ≠ b := ⟨false, true, by decide⟩
  have hL : ∃ a b : List (Fin 256), a ≠ b := ⟨[], [0], by decide⟩
  cases t
  case void =>
    constructor
    · rintro ⟨a, b, hab⟩
      exact absurd rfl hab
    · intro h
      exact absurd rfl h
  case CString => exact ⟨fun _ => by decide, fun _ => hL⟩
  case bool => exact ⟨fun _ => by decide, fun _ => hB⟩
  all_goals first
    | exact ⟨fun _ => by decide, fun _ => hI⟩
    | exact ⟨fun _ => by decide, fun _ => hN⟩

/-- C7: the two-parameter `setVar` overloads declared in the header are nine,
each takes the name as a `CString`, and their value types are, without
duplicates, a permutation of the nine primitive kinds: one overload for each
kind and none for anything else. -/
theorem setVar_overloads_cover_kinds :
    List.Perm (JVMLinkClient.setVarValueTypes.map CType.kind?) (Kind.all.map some) ∧
    JVMLinkClient.setVarValueTypes.Nodup ∧
    (JVMLinkClient.setVarValueTypes.map CType.kind?).Nodup ∧
    JVMLinkClient.typedSetVars.length = 9 ∧
    (∀ d ∈ JVMLinkClient.typedSetVars, d.params.head? = some .CString) := by
  decide

/-- C8, as stated, fails on the header: `startJava` is one of the operations and
is declared `void`, so whatever it hands back after a failure equals what it
hands back after a success. -/
theorem void_operation_returns_no_status :
    ¬ (∀ d ∈ JVMLinkClient.members, d.name ∈ clientOperations → ∃ a b : d.ret.Val, a ≠ b) := by
  intro h
  obtain ⟨a, b, hab⟩ := h ⟨.void, "startJava", [.int, .CString, .CString]⟩ (by decide) (by decide)
  exact hab rfl

/-- C8, amended: a declared member function can hand two different values to its
caller exactly when it is one of `establishConnection`, `closeConnection`,
`sendMessage`, `readMessage`, `getVar`; it is declared `void` exactly when it
is one of `startJava`, `shutJava`, `setVar`, `exec`. -/
theorem declared_return_values (d : MemberDecl) (hd : d ∈ JVMLinkClient.members) :
    ((∃ a b : d.ret.Val, a ≠ b) ↔ d.name ∈ valueReturningOperations) ∧
    (d.ret = .void ↔ d.name ∈ ["startJava", "shutJava", "setVar", "exec"]) ∧
    d.name ∈ clientOperations := by
  rw [retVal_distinct_iff]
  revert d
  decide

theorem declared_return_values_witness :
    (⟨.int, "closeConnection", []⟩ : MemberDecl) ∈ JVMLinkClient.members ∧
    ((∃ a b : (⟨.int, "closeConnection", []⟩ : MemberDecl).ret.Val, a ≠ b)
      ↔ (⟨.int, "closeConnection", []⟩ : MemberDecl).name ∈ valueReturningOperations) ∧
    ((⟨.int, "closeConnection", []⟩ : MemberDecl).ret = .void
      ↔ (⟨.int, "closeConnection", []⟩ : MemberDecl).name
          ∈ ["startJava", "shutJava", "setVar", "exec"]) ∧
    (⟨.int, "closeConnection", []⟩ : MemberDecl).name ∈ clientOperations :=
  ⟨by decide, declared_return_values ⟨.int, "closeConnection", []⟩ (by decide)⟩

/-! ## The contract of the client -/

theorem lookup_cons_self (name : CStr) (value : Value) (rest : List (CStr × Value)) :
    List.lookup name ((name, value) :: rest) = some value := by
  simp [List.lookup]

/-- C1: on a connected client whose peer is the running test double that stores
and echoes variables, `setVar(name, value)` succeeds and the following
`getVar(name)` returns a well-formed Variable with the same name, the same kind
and the same value, for every non-empty name and every value of the nine kinds. -/
theorem setVar_getVar_roundtrip (name : CStr) (value : Value) (c : Client) (p : Peer)
    (hname : name ≠ []) (hc : c.state = .Connected) (hp : p.running = true) :
    (setVar name value c p).result = .ok () ∧
    ∃ var : Variable,
      (getVar name (setVar name value c p).client (setVar name value c p).peer).result
        = .ok var ∧
      var.name = name ∧ var.kind = value.kind ∧ var.value = value ∧ var.WellFormed := by
  have hset : setVar name value c p
      = ⟨.ok (), { c with sent := c.sent ++ [.SET name value.kind value] },
          { p with vars := (name, value) :: p.vars.filter (fun b => b.1 ≠ name) }⟩ := by
    simp [setVar, setVarObject, exchange, hc, hp, Peer.handle, Variable.kind]
  rw [hset]
  refine ⟨rfl, ⟨name, value⟩, ?_, rfl, rfl, rfl, hname⟩
  simp [getVar, exchange, hc, hp, Peer.handle, lookup_cons_self]

theorem setVar_getVar_roundtrip_witness :
    ([120] : CStr) ≠ [] ∧ connectedClient.state = .Connected ∧ emptyPeer.running = true ∧
    (setVar [120] (.integer 42) connectedClient emptyPeer).result = .ok () ∧
    ∃ var : Variable,
      (getVar [120] (setVar [120] (.integer 42) connectedClient emptyPeer).client
          (setVar [120] (.integer 42) connectedClient emptyPeer).peer).result = .ok var ∧
      var.name = [120] ∧ var.kind = (Value.integer 42).kind ∧ var.value = .integer 42 ∧
      var.WellFormed :=
  ⟨by decide, rfl, rfl,
    setVar_getVar_roundtrip [120] (.integer 42) connectedClient emptyPeer (by decide) rfl rfl⟩

/-- C2: in the states `Unstarted` and `Started`, each of `getVar`, `setVar` (the
typed overloads and the Variable form) and `exec` fails with `StateError` and
leaves the client, including the record of frames written and read, and the peer
exactly as they were. -/
theorem operations_before_connect_fail (name code : CStr) (value : Value) (c : Client)
    (p : Peer) (hstate : c.state = .Unstarted ∨ c.state = .Started) :
    getVar name c p = ⟨.error .StateError, c, p⟩ ∧
    setVar name value c p = ⟨.error .StateError, c, p⟩ ∧
    setVarObject ⟨name, value⟩ c p = ⟨.error .StateError, c, p⟩ ∧
    exec code c p = ⟨.error .StateError, c, p⟩ := by
  have hne : c.state ≠ .Connected := by
    rcases hstate with h | h <;> rw [h] <;> decide
  simp [getVar, setVar, setVarObject, exec, hne]

theorem operations_before_connect_fail_witness :
    ({ connectedClient with state := .Started }.state = .Unstarted ∨
      { connectedClient with state := .Started }.state = .Started) ∧
    getVar [120] { connectedClient with state := .Started } emptyPeer
      = ⟨.error .StateError, { connectedClient with state := .Started }, emptyPeer⟩ ∧
    setVar [120] (.boolean true) { connectedClient with state := .Started } emptyPeer
      = ⟨.error .StateError, { connectedClient with state := .Started }, emptyPeer⟩ ∧
    setVarObject ⟨[120], .boolean true⟩ { connectedClient with state := .Started } emptyPeer
      = ⟨.error .StateError, { connectedClient with state := .Started }, emptyPeer⟩ ∧
    exec [49] { connectedClient with state := .Started } emptyPeer
      = ⟨.error .StateError, { connectedClient with state := .Started }, emptyPeer⟩ :=
  ⟨Or.inr rfl,
    operations_before_connect_fail [120] [49] (.boolean true)
      { connectedClient with state := .Started } emptyPeer (Or.inr rfl)⟩

theorem declaredLength_big (b0 b1 b2 b3 : Octet)
    (h : ((b0.val * 256 + b1.val) * 256 + b2.val) * 256 + b3.val < 2 ^ 31) :
    declaredLength .big b0 b1 b2 b3
      = ((((b0.val * 256 + b1.val) * 256 + b2.val) * 256 + b3.val : Nat) : Int) := by
  simp only [declaredLength, if_pos h]

theorem readMessage_accepts (c : Client) (b0 b1 b2 b3 : Octet) (payload : List Octet)
    (hc : c.state = .Connected)
    (h0 : 0 ≤ declaredLength c.endian b0 b1 b2 b3)
    (hmax : declaredLength c.endian b0 b1 b2 b3 ≤ (c.maxLength : Int))
    (hlen : (declaredLength c.endian b0 b1 b2 b3).toNat ≤ payload.length) :
    (readMessage c (b0 :: b1 :: b2 :: b3 :: payload)).result
      = .ok (payload.take (declaredLength c.endian b0 b1 b2 b3).toNat) := by
  have h1 : ¬ (declaredLength c.endian b0 b1 b2 b3 < 0 ∨
      (c.maxLength : Int) < declaredLength c.endian b0 b1 b2 b3) := by omega
  have h2 : ¬ (payload.length < (declaredLength c.endian b0 b1 b2 b3).toNat) := by omega
  simp [readMessage, hc, h1, h2]

/-- C3: when the length prefix of the incoming bytes declares a negative length
or one above the configured maximum, `readMessage()` hands back an error, not a
string, and no buffer has been allocated; on a connected client the error is
`IOError`. -/
theorem readMessage_rejects_bad_length (c : Client) (b0 b1 b2 b3 : Octet)
    (payload : List Octet)
    (hbad : declaredLength c.endian b0 b1 b2 b3 < 0 ∨
      (c.maxLength : Int) < declaredLength c.endian b0 b1 b2 b3) :
    (∃ e, (readMessage c (b0 :: b1 :: b2 :: b3 :: payload)).result = .error e) ∧
    (readMessage c (b0 :: b1 :: b2 :: b3 :: payload)).allocated = [] ∧
    (c.state = .Connected →
      (readMessage c (b0 :: b1 :: b2 :: b3 :: payload)).result = .error .IOError) := by
  by_cases hc : c.state = .Connected
  · simp [readMessage, hc, hbad]
  · simp [readMessage, hc]

theorem readMessage_rejects_bad_length_witness :
    (declaredLength connectedClient.endian 0 0 4 1 < 0 ∨
      (connectedClient.maxLength : Int) < declaredLength connectedClient.endian 0 0 4 1) ∧
    (∃ e, (readMessage connectedClient (0 :: 0 :: 4 :: 1 :: [65, 66])).result = .error e) ∧
    (readMessage connectedClient (0 :: 0 :: 4 :: 1 :: [65, 66])).allocated = [] ∧
    (connectedClient.state = .Connected →
      (readMessage connectedClient (0 :: 0 :: 4 :: 1 :: [65, 66])).result = .error .IOError) :=
  ⟨by decide, readMessage_rejects_bad_length connectedClient 0 0 4 1 [65, 66] (by decide)⟩

/-- C6: in every client state a second `closeConnection()` directly after a first
returns success and changes nothing, so two calls leave the client as one call
does; the first call returns success too. -/
theorem closeConnection_idempotent (c : Client) :
    closeConnection (closeConnection c).client = ⟨.ok (), (closeConnection c).client⟩ ∧
    (closeConnection (closeConnection c).client).client = (closeConnection c).client ∧
    (closeConnection c).result = .ok () := by
  obtain ⟨st, port, owns, mx, en, sent, recv⟩ := c
  cases st <;> simp [closeConnection]

end JVMLink
